import Mathlib

/-!
Shallow embedding of the chat client (src/chatbot.py and src/cli.py).

A `Turn` is one role-tagged message.  `ChatBotState` carries the fields of the
`ChatBot` class that the conversation logic reads and writes: the model name,
`max_exchanges`, the user profile (the Python code stores an empty dict until
`set_user_profile` is called, after which the dict always has both keys; we
model this as an `Option Profile`), and the history list.  The external
completion endpoint is passed in as a function from the outgoing message list
to `Except String String` (error description or answer text).

Python string primitives used by the code are embedded character-list style so
that everything evaluates inside the kernel: `pyStrip` is `str.strip()` (drop
leading and trailing whitespace), `splitOnChar` is `str.split(',')` (keeps
empty pieces, `""` splits to `[""]`), and `pySliceLast n` is the slice
`lst[-n:]` — including the Python fact that `lst[-0:]` is the whole list.
-/

structure Turn where
  role : String
  content : String
  deriving DecidableEq, Repr

structure Profile where
  name : String
  context_items : List String
  deriving DecidableEq, Repr

structure ChatBotState where
  model : String
  max_exchanges : Nat
  user_profile : Option Profile
  history : List Turn
  deriving DecidableEq, Repr

def DEFAULT_MAX_EXCHANGES : Nat := 7

/-- Python `list(str)`-level strip: drop whitespace from both ends. -/
def stripChars (l : List Char) : List Char :=
  ((l.dropWhile Char.isWhitespace).reverse.dropWhile Char.isWhitespace).reverse

/-- Python `s.strip()`. -/
def pyStrip (s : String) : String :=
  String.mk (stripChars s.data)

/-- Python `s.split(sep)` on a single-character separator: keeps empty pieces,
and the empty string splits to `[""]`. -/
def splitOnChar (sep : Char) : List Char → List (List Char)
  | [] => [[]]
  | c :: cs =>
    if c = sep then
      [] :: splitOnChar sep cs
    else
      match splitOnChar sep cs with
      | [] => [[c]]
      | r :: rs => (c :: r) :: rs

def pySplit (s : String) (sep : Char) : List String :=
  (splitOnChar sep s.data).map String.mk

/-- Python `lst[-n:]` for a nonnegative `n`: the last `n` elements, except that
`lst[-0:]` is `lst[0:]`, i.e. the whole list. -/
def pySliceLast (n : Nat) (l : List Turn) : List Turn :=
  if n = 0 then l else l.drop (l.length - n)

/-- `ChatBot.set_user_profile` (src/chatbot.py lines 51-74): parse the comma
separated context string (strip each piece, keep non-empty pieces in order)
and overwrite the profile wholesale. -/
def set_user_profile (st : ChatBotState) (name context_info_str : String) : ChatBotState :=
  { st with
    user_profile := some
      { name := name
        context_items :=
          ((pySplit context_info_str ',').map pyStrip).filter (fun item => item ≠ "") } }

/-- `ChatBot._create_system_prompt` (src/chatbot.py lines 77-100). -/
def create_system_prompt (st : ChatBotState) : Turn :=
  match st.user_profile with
  | none => Turn.mk "system" "Ты — полезный ассистент."
  | some p =>
    let context_str :=
      if p.context_items = [] then "не указана" else String.intercalate ", " p.context_items
    Turn.mk "system"
      ("Ты — ассистент. Веди диалог, строго учитывая следующие данные о пользователе. Имя: "
        ++ p.name
        ++ ". Ключевая информация о нем (интересы, факты): "
        ++ context_str
        ++ ". Всегда обращайся к пользователю по имени. Адаптируй ответы под его интересы, если это уместно.")

/-- src/chatbot.py lines 128-129: append the user turn, then
`self.history = self.history[-self.max_exchanges * 2:]`. -/
def append_and_truncate (st : ChatBotState) (user_input : String) : List Turn :=
  pySliceLast (st.max_exchanges * 2) (st.history ++ [Turn.mk "user" user_input])

/-- src/chatbot.py lines 131-132: `[system_message] + self.history` after the
user append and truncation. -/
def messages_to_send (st : ChatBotState) (user_input : String) : List Turn :=
  create_system_prompt st :: append_and_truncate st user_input

/-- src/chatbot.py lines 145-149: the error text raised on completion failure. -/
def error_msg (model e : String) : String :=
  "Ошибка при обращении к модели: " ++ e ++ "\n"
    ++ "Убедитесь, что Ollama запущен (docker start ollama) "
    ++ "и модель " ++ model ++ " загружена."

/-- `ChatBot.get_response` (src/chatbot.py lines 103-150).  The completion
endpoint is the `complete` argument; it receives exactly the message list the
code sends.  On success the answer is appended as an assistant turn; on
failure `self.history = self.history[:-1]` drops the last stored turn and a
`ConnectionError` carrying `error_msg` is raised (modelled as `Except.error`). -/
def get_response (st : ChatBotState) (user_input : String)
    (complete : List Turn → Except String String) :
    ChatBotState × Except String String :=
  let h2 := append_and_truncate st user_input
  match complete (messages_to_send st user_input) with
  | Except.ok answer =>
    ({ st with history := h2 ++ [Turn.mk "assistant" answer] }, Except.ok answer)
  | Except.error e =>
    ({ st with history := h2.dropLast }, Except.error (error_msg st.model e))

/-- `ChatBot.clear_history` (src/chatbot.py lines 153-158). -/
def clear_history (st : ChatBotState) : ChatBotState :=
  { st with history := [] }

/-- One iteration of `run_chat_loop` (src/cli.py lines 60-79) on a line that is
not a quit or `/history` command: a line whose `strip()` is empty is skipped
with no call and no output (lines 70-71), otherwise `bot.get_response` runs.
This is the spec's `handle_turn`. -/
def handle_turn (st : ChatBotState) (user_text : String)
    (complete : List Turn → Except String String) :
    ChatBotState × Option (Except String String) :=
  if pyStrip user_text = "" then
    (st, none)
  else
    let r := get_response st user_text complete
    (r.1, some r.2)

/-- A successful exchange: `get_response` with a completion that returns the
given answer. -/
def succ_exchange (st : ChatBotState) (p : String × String) : ChatBotState :=
  (get_response st p.1 (fun _ => Except.ok p.2)).1

/-- A sequence of successful exchanges, oldest first. -/
def run_exchanges (st : ChatBotState) (l : List (String × String)) : ChatBotState :=
  l.foldl succ_exchange st

/-- The rollback-of-last-user operation of the spec's ConversationState.
Modelled from the spec: the repository inlines the rollback as the plain slice
`self.history = self.history[:-1]` inside the failure handler of
`get_response` (src/chatbot.py line 144); the guarded standalone operation
`rollback_last_user` with its `EmptyHistoryError` signal is described only in
the spec and is absent from the source. -/
inductive RollbackError where
  | emptyHistory
  deriving DecidableEq, Repr

/-- Modelled from the spec: removes the most recently appended turn, failing
with the `EmptyHistoryError` signal when the history is empty. -/
def rollback_last_user (history : List Turn) : Except RollbackError (List Turn) :=
  if history.isEmpty then
    Except.error RollbackError.emptyHistory
  else
    Except.ok history.dropLast

/-! ## Concrete session states used by closed theorems -/

/-- A fresh bot with the default model and window, no profile, empty history. -/
def bot0 : ChatBotState :=
  ChatBotState.mk "llama3:8b" DEFAULT_MAX_EXCHANGES none []

/-- A bot whose window is not yet full: default window, one stored exchange. -/
def bot_room : ChatBotState :=
  ChatBotState.mk "llama3:8b" 7 none [Turn.mk "user" "hello", Turn.mk "assistant" "hi"]

/-- A bot whose window is exactly full: `max_exchanges = 1` and one stored
exchange, so the history already holds `2 * max_exchanges` turns. -/
def bot_full : ChatBotState :=
  ChatBotState.mk "llama3:8b" 1 none [Turn.mk "user" "a", Turn.mk "assistant" "b"]

/-- A bot with `max_exchanges = 0` and empty history. -/
def bot_zero : ChatBotState :=
  ChatBotState.mk "llama3:8b" 0 none []

/-- A bot with `max_exchanges = 1` and empty history. -/
def bot_one : ChatBotState :=
  ChatBotState.mk "llama3:8b" 1 none []

/-- A bot with a profile already set. -/
def bot_profiled : ChatBotState :=
  ChatBotState.mk "llama3:8b" 7 (some (Profile.mk "Ana" ["chess"])) []

/-! ## Helper lemmas -/

lemma pySliceLast_of_small (n : Nat) (l : List Turn) (h : n = 0 ∨ l.length ≤ n) :
    pySliceLast n l = l := by
  rcases h with h | h
  · simp [pySliceLast, h]
  · unfold pySliceLast
    split
    · rfl
    · rw [Nat.sub_eq_zero_of_le h, List.drop_zero]

/-- When the appended user turn does not overflow the window (or the window is
`0`, where the slice `[-0:]` keeps everything), the truncation drops nothing. -/
lemma append_and_truncate_of_not_full (st : ChatBotState) (u : String)
    (h : st.max_exchanges = 0 ∨ st.history.length + 1 ≤ 2 * st.max_exchanges) :
    append_and_truncate st u = st.history ++ [Turn.mk "user" u] := by
  apply pySliceLast_of_small
  rcases h with h | h
  · left
    simp [h]
  · right
    simp only [List.length_append, List.length_cons, List.length_nil]
    omega

/-! ## C5: all-whitespace input is a no-op -/

/-- C5: calling `handle_turn` with input whose `strip()` is empty changes
nothing in the state, raises no error and produces no assistant output. -/
theorem C5_whitespace_noop (st : ChatBotState) (user_text : String)
    (complete : List Turn → Except String String)
    (h : pyStrip user_text = "") :
    handle_turn st user_text complete = (st, none) := by
  simp [handle_turn, h]

/-- C5 witness: the concrete all-whitespace input from the spec. -/
theorem C5_whitespace_noop_witness :
    pyStrip "   " = ""
    ∧ handle_turn bot0 "   " (fun _ => Except.error "down") = (bot0, none) :=
  ⟨by decide, C5_whitespace_noop bot0 "   " (fun _ => Except.error "down") (by decide)⟩

/-! ## C6: rollback on empty history signals EmptyHistoryError -/

/-- C6: invoking the rollback-of-last-user operation on an empty history fails
with the `EmptyHistoryError` signal instead of silently succeeding. -/
theorem C6_rollback_empty_history_fails :
    rollback_last_user [] = Except.error RollbackError.emptyHistory := rfl

/-! ## C7: profile context parsing -/

/-- C7: `set_user_profile` stores the given name, and the context items are
exactly the comma-split, whitespace-stripped pieces with the empty pieces
discarded: the items form a sublist of the stripped pieces (order preserved,
nothing reordered), no item is empty (empty pieces discarded), and every
non-empty string occurs among the items exactly as often as among the stripped
pieces (nothing non-empty is dropped and duplicates are preserved); the spec's
concrete round-trip example evaluates exactly as stated. -/
theorem C7_set_profile_parsing (st : ChatBotState) (name raw : String) :
    ∃ items : List String,
      (set_user_profile st name raw).user_profile = some (Profile.mk name items)
      ∧ items.Sublist ((pySplit raw ',').map pyStrip)
      ∧ "" ∉ items
      ∧ (∀ s : String, s ≠ "" →
          items.count s = (((pySplit raw ',').map pyStrip)).count s)
      ∧ (set_user_profile st "Ana" "chess, hiking,  reading ").user_profile
          = some (Profile.mk "Ana" ["chess", "hiking", "reading"]) := by
  have hconc : (set_user_profile st "Ana" "chess, hiking,  reading ").user_profile
      = some (Profile.mk "Ana" ["chess", "hiking", "reading"]) := rfl
  refine ⟨_, rfl, List.filter_sublist _, ?_, ?_, hconc⟩
  · intro hmem
    have := List.of_mem_filter hmem
    simp at this
  · intro s hs
    exact List.count_filter (by simpa using hs)

/-! ## C9: frame of clear_history -/

/-- C9: `clear_history` empties the history and leaves the user profile, the
model name and `max_exchanges` untouched. -/
theorem C9_clear_history_frame (st : ChatBotState) :
    (clear_history st).history = []
    ∧ (clear_history st).user_profile = st.user_profile
    ∧ (clear_history st).model = st.model
    ∧ (clear_history st).max_exchanges = st.max_exchanges :=
  ⟨rfl, rfl, rfl, rfl⟩

/-! ## C10: after set_user_profile the prompt is always personalized -/

/-- C10: after any `set_user_profile` call — even with empty name and empty
context — the stored profile is non-empty, so `create_system_prompt` takes the
personalized branch and never returns the generic assistant-persona content. -/
theorem C10_prompt_personalized_after_set (st : ChatBotState) (name ctx : String) :
    (set_user_profile st name ctx).user_profile ≠ none
    ∧ (create_system_prompt (set_user_profile st name ctx)).content
        ≠ "Ты — полезный ассистент." := by
  constructor
  · simp [set_user_profile]
  · intro h
    have hG : ("Ты — полезный ассистент.").length
        < ("Ты — ассистент. Веди диалог, строго учитывая следующие данные о пользователе. Имя: ").length := by
      decide
    have hlen := congrArg String.length h
    simp only [create_system_prompt, set_user_profile, String.length_append] at hlen
    omega

/-! ## C1: failure isolation -/

/-- C1 counterexample: with a full window (`max_exchanges = 1`, history of
length `2`) a failed call does not restore the history: the pre-send
truncation has already evicted the oldest turn and the rollback removes only
the just-appended user turn, leaving `[assistant "b"]` instead of the original
`[user "a", assistant "b"]`. -/
theorem C1_full_window_counterexample :
    (get_response bot_full "c" (fun _ => Except.error "down")).1.history
        = [Turn.mk "assistant" "b"]
    ∧ (get_response bot_full "c" (fun _ => Except.error "down")).1.history
        ≠ bot_full.history := by
  constructor
  · rfl
  · decide

/-- C1 amended: failure isolation holds whenever the appended user turn does
not overflow the window — if `max_exchanges = 0` (where the slice `[-0:]`
keeps everything) or `len(H) + 1 ≤ 2 * max_exchanges`, then after the failed
call the history equals exactly the prior history `H` and the error carries
the formatted message. -/
theorem C1_failure_isolation_amended (st : ChatBotState) (u e : String)
    (complete : List Turn → Except String String)
    (hfail : complete (messages_to_send st u) = Except.error e)
    (hroom : st.max_exchanges = 0 ∨ st.history.length + 1 ≤ 2 * st.max_exchanges) :
    (get_response st u complete).1.history = st.history
    ∧ (get_response st u complete).2 = Except.error (error_msg st.model e) := by
  simp [get_response, hfail, append_and_truncate_of_not_full st u hroom,
    List.dropLast_concat]

/-- C1 witness: a failing call against a non-full window restores the history
exactly. -/
theorem C1_failure_isolation_witness :
    (fun _ => Except.error "down" : List Turn → Except String String)
        (messages_to_send bot_room "ping") = Except.error "down"
    ∧ (bot_room.max_exchanges = 0 ∨ bot_room.history.length + 1 ≤ 2 * bot_room.max_exchanges)
    ∧ ((get_response bot_room "ping" (fun _ => Except.error "down")).1.history = bot_room.history
      ∧ (get_response bot_room "ping" (fun _ => Except.error "down")).2
          = Except.error (error_msg bot_room.model "down")) :=
  ⟨rfl, by decide,
    C1_failure_isolation_amended bot_room "ping" "down" (fun _ => Except.error "down")
      rfl (by decide)⟩

/-! ## C2: the max_exchanges = 0 boundary -/

/-- C2 evaluation at the failing input: with `max_exchanges = 0` the slice
`self.history[-self.max_exchanges * 2:]` is `history[-0:]`, the whole list, so
the just-appended user turn is NOT evicted (stored length is `1`, not `0`) and
the outgoing message list is `[system_turn, user_turn]`, not `[system_turn]`. -/
theorem C2_zero_window_code_eval :
    (append_and_truncate bot_zero "hi").length = 1
    ∧ append_and_truncate bot_zero "hi" = [Turn.mk "user" "hi"]
    ∧ messages_to_send bot_zero "hi"
        = [create_system_prompt bot_zero, Turn.mk "user" "hi"]
    ∧ messages_to_send bot_zero "hi" ≠ [create_system_prompt bot_zero] := by
  refine ⟨rfl, rfl, rfl, ?_⟩
  intro h
  exact absurd (congrArg List.length h) (by decide)

/-! ## C3: transition sizes of one handle_turn call -/

/-- C3 counterexample: with a full window (`max_exchanges = 1`, history of
length `2`) a successful call grows the history by exactly `1`, not `2`: the
truncation evicts the oldest stored turn before the assistant turn is
appended. -/
theorem C3_full_window_counterexample :
    (get_response bot_full "c" (fun _ => Except.ok "d")).1.history
        = [Turn.mk "assistant" "b", Turn.mk "user" "c", Turn.mk "assistant" "d"]
    ∧ (get_response bot_full "c" (fun _ => Except.ok "d")).1.history.length
        = bot_full.history.length + 1
    ∧ (get_response bot_full "c" (fun _ => Except.ok "d")).1.history
        ≠ bot_full.history ++ [Turn.mk "user" "c", Turn.mk "assistant" "d"] := by
  refine ⟨rfl, rfl, ?_⟩
  intro h
  exact absurd (congrArg List.length h) (by decide)

/-- C3 amended: whenever the appended user turn does not overflow the window
(`max_exchanges = 0` or `len(history) + 1 ≤ 2 * max_exchanges`), a successful
call grows the history by exactly the user turn and the assistant turn, and a
failed call leaves the history unchanged. -/
theorem C3_transition_sizes_amended (st : ChatBotState) (u : String)
    (complete : List Turn → Except String String)
    (hroom : st.max_exchanges = 0 ∨ st.history.length + 1 ≤ 2 * st.max_exchanges) :
    (∀ a, complete (messages_to_send st u) = Except.ok a →
      (get_response st u complete).1.history
        = st.history ++ [Turn.mk "user" u, Turn.mk "assistant" a])
    ∧ (∀ e, complete (messages_to_send st u) = Except.error e →
      (get_response st u complete).1.history = st.history) := by
  constructor
  · intro a ha
    simp [get_response, ha, append_and_truncate_of_not_full st u hroom]
  · intro e he
    simp [get_response, he, append_and_truncate_of_not_full st u hroom,
      List.dropLast_concat]

/-- C3 witness: a successful call against a non-full window appends exactly
the user turn and the assistant turn. -/
theorem C3_transition_sizes_witness :
    (bot_room.max_exchanges = 0 ∨ bot_room.history.length + 1 ≤ 2 * bot_room.max_exchanges)
    ∧ (get_response bot_room "ping" (fun _ => Except.ok "pong")).1.history
        = bot_room.history ++ [Turn.mk "user" "ping", Turn.mk "assistant" "pong"] :=
  ⟨by decide,
    (C3_transition_sizes_amended bot_room "ping" (fun _ => Except.ok "pong")
      (by decide)).1 "pong" rfl⟩

/-! ## C4: rolling-window length invariant -/

lemma succ_exchange_max (st : ChatBotState) (p : String × String) :
    (succ_exchange st p).max_exchanges = st.max_exchanges := rfl

lemma succ_exchange_history (st : ChatBotState) (p : String × String) :
    (succ_exchange st p).history
      = append_and_truncate st p.1 ++ [Turn.mk "assistant" p.2] := rfl

lemma append_and_truncate_length (st : ChatBotState) (u : String)
    (hm : 1 ≤ st.max_exchanges) :
    (append_and_truncate st u).length
      = min (st.history.length + 1) (st.max_exchanges * 2) := by
  unfold append_and_truncate pySliceLast
  rw [if_neg (by omega)]
  simp only [List.length_drop, List.length_append, List.length_cons, List.length_nil]
  omega

lemma run_exchanges_cons (st : ChatBotState) (p : String × String)
    (t : List (String × String)) :
    run_exchanges st (p :: t) = run_exchanges (succ_exchange st p) t := rfl

lemma run_exchanges_max (l : List (String × String)) :
    ∀ st : ChatBotState, (run_exchanges st l).max_exchanges = st.max_exchanges := by
  induction l with
  | nil => intro st; rfl
  | cons p t ih =>
    intro st
    rw [run_exchanges_cons, ih, succ_exchange_max]

/-- Length of the stored history after a run of successful exchanges: the
window caps it at `2 * max_exchanges + 1` (the assistant append may exceed the
window by one; the excess is removed on the next user append). -/
lemma run_exchanges_history_length (l : List (String × String)) :
    ∀ st : ChatBotState, 1 ≤ st.max_exchanges →
      st.history.length ≤ 2 * st.max_exchanges + 1 →
      (run_exchanges st l).history.length
        = min (st.history.length + 2 * l.length) (2 * st.max_exchanges + 1) := by
  induction l with
  | nil =>
    intro st hm hb
    simp only [run_exchanges, List.foldl_nil, List.length_nil]
    omega
  | cons p t ih =>
    intro st hm hb
    have hstep : (succ_exchange st p).history.length
        = min (st.history.length + 1) (st.max_exchanges * 2) + 1 := by
      rw [succ_exchange_history, List.length_append,
        append_and_truncate_length st p.1 hm]
      simp
    have hmax := succ_exchange_max st p
    rw [run_exchanges_cons,
      ih (succ_exchange st p) (by rw [hmax]; exact hm) (by rw [hstep, hmax]; omega),
      hstep, hmax]
    simp only [List.length_cons]
    omega

/-- C4 counterexample: immediately after the very first user-turn truncation
(zero exchanges so far, `max_exchanges = 1`, empty history) the stored length
is `1`, while the claimed formula `2 * min(exchanges_so_far, max_exchanges)`
gives `0` (or `2` if the in-flight exchange is counted). -/
theorem C4_window_invariant_counterexample :
    (append_and_truncate (run_exchanges bot_one []) "x").length = 1
    ∧ (1 : Nat) ≠ 2 * min 0 bot_one.max_exchanges
    ∧ (1 : Nat) ≠ 2 * min 1 bot_one.max_exchanges := by
  refine ⟨rfl, by decide, by decide⟩

/-- C4 amended: for `max_exchanges ≥ 1` and any sequence of successful
exchanges starting from an empty history, the stored length immediately after
the user-turn truncation (before the assistant append of the current
exchange) is `min (2 * exchanges_so_far + 1) (2 * max_exchanges)` — odd while
the window is not yet saturated because the just-appended user turn is
counted, and capped at `2 * max_exchanges` once it is. -/
theorem C4_window_invariant_amended (st : ChatBotState)
    (l : List (String × String)) (u : String)
    (hm : 1 ≤ st.max_exchanges) (h0 : st.history = []) :
    (append_and_truncate (run_exchanges st l) u).length
      = min (2 * l.length + 1) (2 * st.max_exchanges) := by
  have hmax := run_exchanges_max l st
  have hlen := run_exchanges_history_length l st hm (by rw [h0]; simp)
  rw [append_and_truncate_length _ u (by rw [hmax]; exact hm), hlen, hmax, h0]
  simp only [List.length_nil]
  omega

/-- C4 witness: one successful exchange on a window of one exchange, then the
next user turn: the truncated length is `min 3 2 = 2`. -/
theorem C4_window_invariant_witness :
    1 ≤ bot_one.max_exchanges ∧ bot_one.history = []
    ∧ (append_and_truncate (run_exchanges bot_one [("hi", "yo")]) "x").length
        = min (2 * [("hi", "yo")].length + 1) (2 * bot_one.max_exchanges) :=
  ⟨by decide, rfl,
    C4_window_invariant_amended bot_one [("hi", "yo")] "x" (by decide) rfl⟩

/-! ## C8: idempotence and content of the system turn -/

/-- C8: rebuilding the system turn with no state change in between yields
identical content, and with a profile set the content contains the name
verbatim and the comma-and-space joined context list verbatim (for an empty
context list the join is the empty string). -/
theorem C8_system_prompt_idempotent_content (st : ChatBotState) (p : Profile)
    (h : st.user_profile = some p) :
    create_system_prompt st = create_system_prompt st
    ∧ p.name.data <:+: (create_system_prompt st).content.data
    ∧ (String.intercalate ", " p.context_items).data
        <:+: (create_system_prompt st).content.data := by
  refine ⟨rfl, ?_, ?_⟩
  · refine ⟨("Ты — ассистент. Веди диалог, строго учитывая следующие данные о пользователе. Имя: ").data,
      (". Ключевая информация о нем (интересы, факты): ").data
        ++ (if p.context_items = [] then "не указана"
            else String.intercalate ", " p.context_items).data
        ++ (". Всегда обращайся к пользователю по имени. Адаптируй ответы под его интересы, если это уместно.").data,
      ?_⟩
    simp [create_system_prompt, h, String.data_append, List.append_assoc]
  · by_cases hc : p.context_items = []
    · have hnil : (String.intercalate ", " p.context_items).data = [] := by
        rw [hc]
        rfl
      rw [hnil]
      exact List.nil_infix
    · refine ⟨("Ты — ассистент. Веди диалог, строго учитывая следующие данные о пользователе. Имя: ").data
        ++ p.name.data
        ++ (". Ключевая информация о нем (интересы, факты): ").data,
        (". Всегда обращайся к пользователю по имени. Адаптируй ответы под его интересы, если это уместно.").data,
        ?_⟩
      simp [create_system_prompt, h, hc, String.data_append, List.append_assoc]

/-- C8 witness: a concrete profiled session. -/
theorem C8_system_prompt_witness :
    bot_profiled.user_profile = some (Profile.mk "Ana" ["chess"])
    ∧ (create_system_prompt bot_profiled = create_system_prompt bot_profiled
      ∧ (Profile.mk "Ana" ["chess"]).name.data
          <:+: (create_system_prompt bot_profiled).content.data
      ∧ (String.intercalate ", " (Profile.mk "Ana" ["chess"]).context_items).data
          <:+: (create_system_prompt bot_profiled).content.data) :=
  ⟨rfl, C8_system_prompt_idempotent_content bot_profiled (Profile.mk "Ana" ["chess"]) rfl⟩
